import Mathlib

/-!
Shallow embedding of the LightOfPDF Flask application (src/app.py and
src/config.py): the data model (documents stored in the `pdfs` collection),
the helpers (`valid_mode`, `valid_subject`, `generate_slug`) and the route
handlers (`subject_page`, `pdf_view`, `upload`, `search`) that the claims
concern. Python strings are modelled as lists of characters; the MongoDB
collection is modelled as a list of documents in insertion order.
-/

namespace LightOfPDF

/-- Python strings are modelled as lists of characters. -/
abbrev PyStr := List Char

/-- Model of Python str.lower on one character, on the ASCII range used by the
application data (modes, subjects, titles, queries). -/
def pyLowerChar (c : Char) : Char :=
  if 65 ≤ c.toNat ∧ c.toNat ≤ 90 then Char.ofNat (c.toNat + 32) else c

/-- Model of Python str.lower. -/
def pyLower (s : PyStr) : PyStr := s.map pyLowerChar

/-- The ASCII whitespace characters removed by Python str.strip. -/
def isPySpace (c : Char) : Bool :=
  c = ' ' || c = '\t' || c = '\n' || c = '\r' || c = '\x0b' || c = '\x0c'

/-- Remove the characters satisfying p from both ends of a list. -/
def trimEnds (p : Char → Bool) (s : PyStr) : PyStr :=
  ((s.dropWhile p).reverse.dropWhile p).reverse

/-- Model of Python str.strip with no argument: remove leading and trailing
whitespace. -/
def pyStrip (s : PyStr) : PyStr := trimEnds isPySpace s

/-- The fixed mode enumeration of src/app.py. -/
def MODES : List PyStr := ["academic".toList, "admission".toList]

/-- The fixed twelve-subject enumeration of src/app.py. -/
def SUBJECTS : List PyStr :=
  [ "physics 1st paper".toList
  , "physics 2nd paper".toList
  , "chemistry 1st paper".toList
  , "chemistry 2nd paper".toList
  , "math 1st paper".toList
  , "math 2nd paper".toList
  , "biology 1st paper".toList
  , "biology 2nd paper".toList
  , "english 1st paper".toList
  , "bangla 1st paper".toList
  , "bangla 2nd paper".toList
  , "ict".toList ]

/-- Helper `valid_mode` of src/app.py: the lowercased mode is in MODES. -/
def valid_mode (mode : PyStr) : Bool := MODES.contains (pyLower mode)

/-- Helper `valid_subject` of src/app.py: the lowercased subject is in
SUBJECTS. -/
def valid_subject (subject : PyStr) : Bool := SUBJECTS.contains (pyLower subject)

/-- Characters that the slugifier keeps: lowercase ASCII letters and digits. -/
def isSlugChar (c : Char) : Bool :=
  ('a' ≤ c && c ≤ 'z') || ('0' ≤ c && c ≤ '9')

/-- Collapse each run of consecutive dashes to a single dash. -/
def collapseDashes : PyStr → PyStr
  | [] => []
  | [c] => [c]
  | a :: b :: rest =>
    if a = '-' ∧ b = '-' then collapseDashes (b :: rest)
    else a :: collapseDashes (b :: rest)

/-- Helper `generate_slug` of src/app.py. The route delegates to the
python-slugify library; its behaviour on ASCII input is modelled here:
lowercase the title, replace each run of characters that are not lowercase
letters or digits by a single dash, and strip dashes from both ends. -/
def generate_slug (title : PyStr) : PyStr :=
  trimEnds (fun c => c = '-')
    (collapseDashes ((pyLower title).map (fun c => if isSlugChar c then c else '-')))

/-- A record of the `pdfs` MongoDB collection, with the fields written by the
upload route of src/app.py. -/
structure Document where
  mode : PyStr
  subject : PyStr
  title : PyStr
  filename : PyStr
  link : PyStr
  description : PyStr
  photo : PyStr
deriving DecidableEq

/-- Outcome of the `subject_page` route. -/
inductive SubjectPageResult where
  | invalidSelector
  | page (mode subject : PyStr) (pdfs : List Document)
deriving DecidableEq

/-- Route `subject_page` of src/app.py: lowercase both selectors, reject the
pair when either fails validation (the 404 error page), otherwise list the
documents whose mode and subject equal the lowercased selectors. -/
def subject_page (mode subject : PyStr) (store : List Document) : SubjectPageResult :=
  let m := pyLower mode
  let s := pyLower subject
  if !valid_mode m || !valid_subject s then .invalidSelector
  else .page m s (store.filter (fun d => d.mode == m && d.subject == s))

/-- Outcome of the `pdf_view` route. -/
inductive PdfViewResult where
  | invalidSubject
  | notFound
  | view (pdf : Document)
deriving DecidableEq

/-- Route `pdf_view` of src/app.py: lowercase the subject, reject an invalid
subject (404), otherwise look up the first document with the given subject and
filename; `find_one` is modelled by `List.find?`. -/
def pdf_view (subject filename : PyStr) (store : List Document) : PdfViewResult :=
  let s := pyLower subject
  if !valid_subject s then .invalidSubject
  else
    match store.find? (fun d => d.subject == s && d.filename == filename) with
    | some pdf => .view pdf
    | none => .notFound

/-- The POST form fields read by the upload route. -/
structure UploadForm where
  mode : PyStr
  subject : PyStr
  title : PyStr
  link : PyStr
  description : PyStr
  photo : PyStr
deriving DecidableEq

/-- Flash message for an invalid mode. -/
def invalidModeMsg : PyStr := "Invalid mode selected.".toList

/-- Flash message for an invalid subject. -/
def invalidSubjectMsg : PyStr := "Invalid subject selected.".toList

/-- Flash message for a missing title. -/
def titleRequiredMsg : PyStr := "Title is required.".toList

/-- Flash message for a missing link. -/
def linkRequiredMsg : PyStr := "Link is required.".toList

/-- Outcome of a POST to the upload route. -/
inductive UploadResult where
  | validationFailed (errors : List PyStr)
  | duplicateExists
  | uploaded (mode subject : PyStr)
deriving DecidableEq

/-- Route `upload` (POST branch) of src/app.py: lowercase mode and subject,
strip the free-text fields, accumulate the validation errors in order, and on
success either report a duplicate (matching filename, subject and mode already
stored) or append the new record to the store. Returns the outcome together
with the resulting store. -/
def upload (form : UploadForm) (store : List Document) : UploadResult × List Document :=
  let mode := pyLower form.mode
  let subject := pyLower form.subject
  let title := pyStrip form.title
  let link := pyStrip form.link
  let description := pyStrip form.description
  let photo := pyStrip form.photo
  let errors :=
    (if !valid_mode mode then [invalidModeMsg] else []) ++
    (if !valid_subject subject then [invalidSubjectMsg] else []) ++
    (if title.isEmpty then [titleRequiredMsg] else []) ++
    (if link.isEmpty then [linkRequiredMsg] else [])
  if !errors.isEmpty then (.validationFailed errors, store)
  else
    let filename := generate_slug title
    match store.find? (fun d =>
        d.filename == filename && d.subject == subject && d.mode == mode) with
    | some _ => (.duplicateExists, store)
    | none =>
      (.uploaded mode subject,
       store ++ [⟨mode, subject, title, filename, link, description, photo⟩])

/-! Model of the regular-expression engine behind MongoDB $regex, used by the
search route. The modelled PCRE fragment: literal characters, backslash
escapes (escaped punctuation, the control escapes, two-digit hex escapes, and
the class escapes for digit, word and whitespace with their negations), the
dot (any character except newline), character classes with negation and
ranges, the anchors at string start and string end (the end anchor also
matching before a final newline), grouping with plain or non-capturing
parentheses, alternation, and the quantifiers star, plus, optional and
counted repetition. Invalid patterns — a lone or unmatched parenthesis, an
unterminated class, a quantifier with nothing to repeat, a trailing
backslash, an out-of-order counted repetition, an unsupported escape or
extended group — fail to parse, which models the OperationFailure the store
raises on them. Outside the fragment: backreferences, lookaround and inline
options are parse errors rather than their PCRE meaning, the lazy quantifier
modifier is accepted (it never changes whether a match exists) and the
possessive modifier is approximated by the plain greedy quantifier. -/

/-- One item of a character class: a single character or an inclusive range. -/
inductive ClassItem where
  | single (c : Char)
  | range (lo hi : Char)
deriving DecidableEq

/-- Abstract grammar of the modelled regular-expression fragment. -/
inductive Regex where
  | eps
  | char (c : Char)
  | anyChar
  | cls (neg : Bool) (items : List ClassItem)
  | bol
  | eol
  | cat (r1 r2 : Regex)
  | alt (r1 r2 : Regex)
  | star (r : Regex)
deriving DecidableEq

/-- Class items for the digit escape. -/
def digitItems : List ClassItem := [.range '0' '9']

/-- Class items for the word escape. -/
def wordItems : List ClassItem :=
  [.range 'a' 'z', .range 'A' 'Z', .range '0' '9', .single '_']

/-- Class items for the whitespace escape. -/
def spaceItems : List ClassItem :=
  [.single ' ', .single '\t', .single '\n', .single '\r', .single '\x0b', .single '\x0c']

/-- Value of a hexadecimal digit. -/
def hexVal (c : Char) : Option Nat :=
  if '0' ≤ c ∧ c ≤ '9' then some (c.toNat - 48)
  else if 'a' ≤ c ∧ c ≤ 'f' then some (c.toNat - 87)
  else if 'A' ≤ c ∧ c ≤ 'F' then some (c.toNat - 55)
  else none

/-- Parse one escape sequence (the input starts after the backslash).
Unsupported alphanumeric escapes, among them backreferences, are parse
errors, as is a trailing backslash. -/
def parseEscape : PyStr → Option (Regex × PyStr)
  | [] => none
  | 'd' :: r => some (.cls false digitItems, r)
  | 'D' :: r => some (.cls true digitItems, r)
  | 'w' :: r => some (.cls false wordItems, r)
  | 'W' :: r => some (.cls true wordItems, r)
  | 's' :: r => some (.cls false spaceItems, r)
  | 'S' :: r => some (.cls true spaceItems, r)
  | 'n' :: r => some (.char '\n', r)
  | 't' :: r => some (.char '\t', r)
  | 'r' :: r => some (.char '\r', r)
  | 'f' :: r => some (.char '\x0c', r)
  | 'v' :: r => some (.char '\x0b', r)
  | 'a' :: r => some (.char '\x07', r)
  | 'e' :: r => some (.char '\x1b', r)
  | '0' :: r => some (.char '\x00', r)
  | 'x' :: h1 :: h2 :: r =>
    (match hexVal h1, hexVal h2 with
     | some v1, some v2 => some (.char (Char.ofNat (16 * v1 + v2)), r)
     | _, _ => none)
  | c :: r => if c.isAlphanum then none else some (.char c, r)

/-- One parsed element inside a character class: a plain character, which may
begin a range, or an escape set, which may not. -/
inductive ClassAtom where
  | ch (c : Char)
  | set (items : List ClassItem)

/-- Parse one element of a character class body. -/
def classAtom : PyStr → Option (ClassAtom × PyStr)
  | [] => none
  | '\\' :: r =>
    (match r with
     | [] => none
     | 'd' :: r2 => some (.set digitItems, r2)
     | 'w' :: r2 => some (.set wordItems, r2)
     | 's' :: r2 => some (.set spaceItems, r2)
     | 'n' :: r2 => some (.ch '\n', r2)
     | 't' :: r2 => some (.ch '\t', r2)
     | 'r' :: r2 => some (.ch '\r', r2)
     | 'f' :: r2 => some (.ch '\x0c', r2)
     | 'v' :: r2 => some (.ch '\x0b', r2)
     | 'x' :: h1 :: h2 :: r2 =>
       (match hexVal h1, hexVal h2 with
        | some v1, some v2 => some (.ch (Char.ofNat (16 * v1 + v2)), r2)
        | _, _ => none)
     | c :: r2 => if c.isAlphanum then none else some (.ch c, r2))
  | c :: r => some (.ch c, r)

/-- Parse a character class body up to the closing bracket, accumulating the
items; running out of input is the unterminated-class error, and a range with
endpoints out of order or a range starting from an escape set is an error.
Each step consumes input, so fuel above the input length never runs out. -/
def classBody : Nat → PyStr → List ClassItem → Option (List ClassItem × PyStr)
  | 0, _, _ => none
  | _ + 1, [], _ => none
  | _ + 1, ']' :: r, acc => some (acc, r)
  | fuel + 1, rest, acc =>
    match classAtom rest with
    | none => none
    | some (.ch c, r1) =>
      (match r1 with
       | '-' :: ']' :: _ => classBody fuel r1 (acc ++ [.single c])
       | '-' :: r2 =>
         (match classAtom r2 with
          | some (.ch c2, r3) =>
            if c ≤ c2 then classBody fuel r3 (acc ++ [.range c c2]) else none
          | _ => none)
       | _ => classBody fuel r1 (acc ++ [.single c]))
    | some (.set items, r1) =>
      (match r1 with
       | '-' :: ']' :: _ => classBody fuel r1 (acc ++ items)
       | '-' :: _ => none
       | _ => classBody fuel r1 (acc ++ items))

/-- Parse a full character class (the input starts after the opening
bracket): optional negation, then a literal closing bracket when it comes
first, then the body. -/
def parseClassAll (rest : PyStr) : Option (Regex × PyStr) :=
  let (neg, r1) :=
    match rest with
    | '^' :: r => (true, r)
    | _ => (false, rest)
  let (init, r2) :=
    match r1 with
    | ']' :: r => ([ClassItem.single ']'], r)
    | _ => ([], r1)
  match classBody (r2.length + 1) r2 init with
  | none => none
  | some (items, r3) => some (.cls neg items, r3)

/-- Parse a non-empty run of decimal digits. -/
def parseNatDigits (s : PyStr) : Option (Nat × PyStr) :=
  let ds := s.takeWhile (fun c => c.isDigit)
  if ds.isEmpty then none
  else some (ds.foldl (fun acc c => acc * 10 + (c.toNat - 48)) 0,
             s.dropWhile (fun c => c.isDigit))

/-- Outcome of reading a brace after an atom: not a quantifier at all (the
brace is then a literal character), a malformed quantifier (a hard pattern
error), or a counted-repetition quantifier. -/
inductive BraceResult where
  | notQuant
  | badQuant
  | quant (m : Nat) (hi : Option Nat) (rest : PyStr)

/-- Parse the body of a counted repetition (the input starts after the
opening brace): a count, an optional comma with an optional upper bound, and
the closing brace. A shape that is not a quantifier leaves the brace literal;
a quantifier shape with a count above the engine limit of 65535 or with
bounds out of order is a pattern error. -/
def parseBraceQuant (rest : PyStr) : BraceResult :=
  match parseNatDigits rest with
  | none => .notQuant
  | some (m, r1) =>
    match r1 with
    | '}' :: r2 => if m > 65535 then .badQuant else .quant m (some m) r2
    | ',' :: '}' :: r2 => if m > 65535 then .badQuant else .quant m none r2
    | ',' :: r2 =>
      (match parseNatDigits r2 with
       | none => .notQuant
       | some (n, r3) =>
         match r3 with
         | '}' :: r4 =>
           if m > 65535 ∨ n > 65535 ∨ m > n then .badQuant
           else .quant m (some n) r4
         | _ => .notQuant)
    | _ => .notQuant

/-- Concatenation of a fixed number of copies of a regex. -/
def catN : Nat → Regex → Regex
  | 0, _ => .eps
  | k + 1, a => .cat a (catN k a)

/-- Counted repetition, expanded to mandatory copies followed by optional
copies, or by a star when no upper bound is given. -/
def applyRep (a : Regex) (m : Nat) : Option Nat → Regex
  | some n => .cat (catN m a) (catN (n - m) (.alt .eps a))
  | none => .cat (catN m a) (.star a)

/-- Does the input begin with a quantifier (a malformed counted repetition
counts: it is an error in quantifier position either way). -/
def startsQuant : PyStr → Bool
  | '*' :: _ => true
  | '+' :: _ => true
  | '?' :: _ => true
  | '{' :: r =>
    (match parseBraceQuant r with
     | .quant _ _ _ => true
     | .badQuant => true
     | .notQuant => false)
  | _ => false

/-- Apply at most one quantifier to a parsed atom, consuming an optional lazy
or possessive modifier after it; a further quantifier right after is the
multiple-repeat error, and a malformed counted repetition is a pattern
error. -/
def parseQuants (a : Regex) (rest : PyStr) : Option (Regex × PyStr) :=
  let app : Option (Option (Regex × PyStr)) :=
    match rest with
    | '*' :: r => some (some (.star a, r))
    | '+' :: r => some (some (.cat a (.star a), r))
    | '?' :: r => some (some (.alt .eps a, r))
    | '{' :: r =>
      (match parseBraceQuant r with
       | .quant m n r2 => some (some (applyRep a m n, r2))
       | .badQuant => none
       | .notQuant => some none)
    | _ => some none
  match app with
  | none => none
  | some none => some (a, rest)
  | some (some (q, r1)) =>
    let s :=
      match r1 with
      | '?' :: r2 => (q, r2)
      | '+' :: r2 => (q, r2)
      | _ => (q, r1)
    if startsQuant s.2 then none else some s

/-- Pending parser call: an alternation, a concatenation, a quantified atom
or a bare atom, each at the given rest of the input. -/
inductive PJob where
  | alt (rest : PyStr)
  | cat (rest : PyStr)
  | rep (rest : PyStr)
  | atom (rest : PyStr)

/-- Recursive-descent parser for the modelled fragment, written as a single
function over pending calls so that recursion is structural on the fuel. A
concatenation stops at an alternation bar, a closing parenthesis or the end;
an atom position holds a group, a class, the dot, an anchor, an escape, a
literal, or one of the error shapes described above. Nesting consumes at most
a constant amount of fuel per input character, so the fuel passed by
`parseRegex` never runs out. -/
def parseP : Nat → PJob → Option (Regex × PyStr)
  | 0, _ => none
  | fuel + 1, .alt rest => do
    let (r1, r1rest) ← parseP fuel (.cat rest)
    match r1rest with
    | '|' :: r2 => do
      let (rr, rrest) ← parseP fuel (.alt r2)
      pure (.alt r1 rr, rrest)
    | _ => pure (r1, r1rest)
  | fuel + 1, .cat rest =>
    (match rest with
     | [] => some (.eps, [])
     | '|' :: _ => some (.eps, rest)
     | ')' :: _ => some (.eps, rest)
     | _ => do
       let (r1, r1rest) ← parseP fuel (.rep rest)
       let (r2, r2rest) ← parseP fuel (.cat r1rest)
       pure (.cat r1 r2, r2rest))
  | fuel + 1, .rep rest => do
    let (a, r1) ← parseP fuel (.atom rest)
    parseQuants a r1
  | fuel + 1, .atom rest =>
    (match rest with
     | [] => none
     | '(' :: '?' :: ':' :: r => do
       let (g, r1) ← parseP fuel (.alt r)
       (match r1 with
        | ')' :: r2 => pure (g, r2)
        | _ => none)
     | '(' :: '?' :: _ => none
     | '(' :: r => do
       let (g, r1) ← parseP fuel (.alt r)
       (match r1 with
        | ')' :: r2 => pure (g, r2)
        | _ => none)
     | ')' :: _ => none
     | '|' :: _ => none
     | '*' :: _ => none
     | '+' :: _ => none
     | '?' :: _ => none
     | '{' :: r =>
       (match parseBraceQuant r with
        | .notQuant => some (.char '{', r)
        | _ => none)
     | '[' :: r => parseClassAll r
     | '.' :: r => some (.anyChar, r)
     | '^' :: r => some (.bol, r)
     | '$' :: r => some (.eol, r)
     | '\\' :: r => parseEscape r
     | c :: r => some (.char c, r))

/-- Parse a whole pattern; leftover input, in particular an unmatched closing
parenthesis, is an error. A parse failure models the OperationFailure MongoDB
raises on an invalid $regex pattern. -/
def parseRegex (pat : PyStr) : Option Regex :=
  match parseP (8 * (pat.length + 2)) (.alt pat) with
  | none => none
  | some (r, rest) => if rest.isEmpty then some r else none

/-- Single-character comparison, caseless when the flag is set. -/
def charEqCI (caseless : Bool) (a b : Char) : Bool :=
  if caseless then pyLowerChar a == pyLowerChar b else a == b

/-- Swap the case of an ASCII letter. -/
def flipCase (c : Char) : Char :=
  if 65 ≤ c.toNat ∧ c.toNat ≤ 90 then Char.ofNat (c.toNat + 32)
  else if 97 ≤ c.toNat ∧ c.toNat ≤ 122 then Char.ofNat (c.toNat - 32)
  else c

/-- Does a class item match a character. -/
def itemMatch (c : Char) : ClassItem → Bool
  | .single d => c == d
  | .range lo hi => lo ≤ c && c ≤ hi

/-- Does any item of a class match the character exactly. -/
def classMatchBase (items : List ClassItem) (c : Char) : Bool :=
  items.any (itemMatch c)

/-- Class membership; under caseless matching a character also matches
through its case-swapped form, as PCRE caseless classes do. -/
def classMatch (caseless : Bool) (items : List ClassItem) (c : Char) : Bool :=
  if caseless then classMatchBase items c || classMatchBase items (flipCase c)
  else classMatchBase items c

/-- Iterate a step function on a set of text positions to a fixpoint: the
closure needed for the star. Positions are bounded by the text length, so
fuel above it reaches the fixpoint. -/
def iterStar (step : Nat → List Nat) : Nat → List Nat → List Nat
  | 0, acc => acc
  | fuel + 1, acc =>
    let nxt := ((acc.flatMap step).filter (fun p => !acc.contains p)).dedup
    if nxt.isEmpty then acc else iterStar step fuel (acc ++ nxt)

/-- Position-set matcher: all positions reachable from the given position
after matching the regex against the text. Total by structural recursion on
the regex, the star delegating its closure to `iterStar`. -/
def matchPos (caseless : Bool) (text : PyStr) : Regex → Nat → List Nat
  | .eps, i => [i]
  | .char c, i =>
    (match (text.drop i).head? with
     | some a => if charEqCI caseless a c then [i + 1] else []
     | none => [])
  | .anyChar, i =>
    (match (text.drop i).head? with
     | some a => if a = '\n' then [] else [i + 1]
     | none => [])
  | .cls neg items, i =>
    (match (text.drop i).head? with
     | some a => if classMatch caseless items a != neg then [i + 1] else []
     | none => [])
  | .bol, i => if i = 0 then [i] else []
  | .eol, i =>
    if i = text.length then [i]
    else if i + 1 = text.length ∧ (text.drop i).head? = some '\n' then [i]
    else []
  | .cat r1 r2, i =>
    ((matchPos caseless text r1 i).flatMap (fun j => matchPos caseless text r2 j)).dedup
  | .alt r1 r2, i =>
    (matchPos caseless text r1 i ++ matchPos caseless text r2 i).dedup
  | .star r, i =>
    iterStar (fun j => matchPos caseless text r j) (text.length + 1) [i]

/-- Unanchored match, as MongoDB applies a $regex pattern to a field value:
the regex matches starting at some position of the text. -/
def regexMatches (caseless : Bool) (r : Regex) (text : PyStr) : Bool :=
  (List.range (text.length + 1)).any (fun i => !(matchPos caseless text r i).isEmpty)

/-- Case-insensitive acceptance of a raw pattern, the composition the search
route uses: parse, then match with the caseless option; an invalid pattern
accepts nothing here (the route surfaces it as an error instead, see
`searchRoute`). -/
def regexAcceptsCI (pat text : PyStr) : Bool :=
  match parseRegex pat with
  | none => false
  | some r => regexMatches true r text

/-- The filter document built by the search route of src/app.py, applied to
one stored document: a disjunction of case-insensitive regex conditions on
title, subject and description, the pattern being the unescaped query. -/
def docMatches (r : Regex) (d : Document) : Bool :=
  regexMatches true r d.title || regexMatches true r d.subject ||
    regexMatches true r d.description

/-- Outcome of the search route: the blank-query page, the 500 page raised by
an invalid pattern, or the rendered results. -/
inductive SearchResponse where
  | empty
  | serverError
  | results (docs : List Document)
deriving DecidableEq

/-- Route `search` of src/app.py: strip the query; a blank query renders the
empty results page without querying the store; otherwise the raw query is the
$regex pattern of the filter — an invalid pattern makes the store raise
OperationFailure, surfaced by the 500 handler, and a valid pattern returns
the documents whose title, subject or description it matches
case-insensitively. -/
def searchRoute (query : PyStr) (store : List Document) : SearchResponse :=
  let q := pyStrip query
  if q.isEmpty then .empty
  else
    match parseRegex q with
    | none => .serverError
    | some r => .results (store.filter (fun d => docMatches r d))

/-- Route `search` of src/app.py, instrumented: the rendered result list
together with a flag recording whether the document store was queried. A
query that is empty after stripping returns the empty list without touching
the store; a query whose pattern is invalid has queried the store (the find
call raised), rendering no results. -/
def searchRun (query : PyStr) (store : List Document) : List Document × Bool :=
  match searchRoute query store with
  | .empty => ([], false)
  | .serverError => ([], true)
  | .results docs => (docs, true)

/-- Route `search` of src/app.py: the rendered result list. -/
def search (query : PyStr) (store : List Document) : List Document :=
  (searchRun query store).1

/-- All suffixes of a list, the list itself and the empty suffix included. -/
def suffixes : PyStr → List PyStr
  | [] => [[]]
  | c :: t => (c :: t) :: suffixes t

/-- Literal list inclusion at the head: the first argument is an initial
segment of the second. -/
def startsWithList : PyStr → PyStr → Bool
  | [], _ => true
  | _ :: _, [] => false
  | a :: as, b :: bs => a = b && startsWithList as bs

/-- The first list occurs contiguously somewhere inside the second. -/
def occursIn (needle hay : PyStr) : Bool :=
  (suffixes hay).any (startsWithList needle)

/-- Spec-side matcher for claim C1, following the words of the specification:
the trimmed query occurs as a literal substring, case-insensitively, of the
title, subject or description. Stated only for comparison with the code-side
`searchMatches`. -/
def specSearchMatches (query : PyStr) (d : Document) : Bool :=
  let q := pyLower (pyStrip query)
  occursIn q (pyLower d.title) || occursIn q (pyLower d.subject) ||
    occursIn q (pyLower d.description)

/-! Infrastructure lemmas: lowercasing and stripping are idempotent, so the
route-level normalisation composed with the helper-level normalisation equals
a single normalisation. -/

theorem pyLowerChar_idem (c : Char) : pyLowerChar (pyLowerChar c) = pyLowerChar c := by
  unfold pyLowerChar
  by_cases h : 65 ≤ c.toNat ∧ c.toNat ≤ 90
  · have hv : (c.toNat + 32).isValidChar := Or.inl (by omega)
    have ht : (Char.ofNat (c.toNat + 32)).toNat = c.toNat + 32 := by
      simp [Char.ofNat, hv]
      rfl
    simp only [if_pos h, ht]
    rw [if_neg (by omega)]
  · simp only [if_neg h]

theorem pyLower_idem (s : PyStr) : pyLower (pyLower s) = pyLower s := by
  induction s with
  | nil => rfl
  | cons c t ih =>
    simp only [pyLower, List.map_cons, List.map_map] at ih ⊢
    rw [List.cons.injEq]
    exact ⟨pyLowerChar_idem c, ih⟩

theorem valid_mode_pyLower (m : PyStr) : valid_mode (pyLower m) = valid_mode m := by
  unfold valid_mode
  rw [pyLower_idem]

theorem valid_subject_pyLower (s : PyStr) : valid_subject (pyLower s) = valid_subject s := by
  unfold valid_subject
  rw [pyLower_idem]

theorem dropWhile_dropWhile (p : Char → Bool) (l : List Char) :
    (l.dropWhile p).dropWhile p = l.dropWhile p := by
  induction l with
  | nil => rfl
  | cons a t ih =>
    rw [List.dropWhile_cons]
    by_cases h : p a = true
    · rw [if_pos h]; exact ih
    · rw [if_neg h, List.dropWhile_cons, if_neg h]

theorem dropWhile_head_false (p : Char → Bool) (l : List Char) (a : Char) (t : List Char)
    (h : l.dropWhile p = a :: t) : p a = false := by
  induction l with
  | nil => simp at h
  | cons b bs ih =>
    rw [List.dropWhile_cons] at h
    by_cases hb : p b = true
    · rw [if_pos hb] at h; exact ih h
    · rw [if_neg hb] at h
      obtain ⟨rfl, rfl⟩ := List.cons.injEq .. |>.mp h |>.imp id id
      simpa using hb

theorem dropWhile_append_singleton (p : Char → Bool) (xs : List Char) (a : Char)
    (h : p a = false) : (xs ++ [a]).dropWhile p = xs.dropWhile p ++ [a] := by
  rw [List.dropWhile_append]
  by_cases he : (xs.dropWhile p).isEmpty = true
  · rw [if_pos he]
    rw [List.isEmpty_iff] at he
    rw [he, List.dropWhile_cons, if_neg (by simp [h])]
    rfl
  · rw [if_neg he]

theorem trimEnds_idem (p : Char → Bool) (s : PyStr) :
    trimEnds p (trimEnds p s) = trimEnds p s := by
  unfold trimEnds
  rcases hu : s.dropWhile p with _ | ⟨a, t⟩
  · simp
  · have ha : p a = false := dropWhile_head_false p s a t hu
    have h1 : ((a :: t).reverse.dropWhile p).reverse.dropWhile p
        = ((a :: t).reverse.dropWhile p).reverse := by
      have hrev : (a :: t).reverse = t.reverse ++ [a] := by simp
      rw [hrev, dropWhile_append_singleton p t.reverse a ha]
      rw [List.reverse_append]
      simp only [List.reverse_cons, List.reverse_nil, List.nil_append, List.singleton_append]
      rw [List.dropWhile_cons, if_neg (by simp [ha])]
    rw [h1, List.reverse_reverse, dropWhile_dropWhile]

theorem pyStrip_idem (s : PyStr) : pyStrip (pyStrip s) = pyStrip s :=
  trimEnds_idem isPySpace s

/-! Helper lemmas characterising the two non-failing outcomes of the upload
route; shared by the claims about uploading. -/

theorem upload_success_eq (form : UploadForm) (store : List Document)
    (hm : valid_mode form.mode = true) (hs : valid_subject form.subject = true)
    (ht : (pyStrip form.title).isEmpty = false) (hl : (pyStrip form.link).isEmpty = false)
    (hfind : store.find? (fun d => d.filename == generate_slug (pyStrip form.title) &&
        d.subject == pyLower form.subject && d.mode == pyLower form.mode) = none) :
    upload form store =
      (.uploaded (pyLower form.mode) (pyLower form.subject),
       store ++ [⟨pyLower form.mode, pyLower form.subject, pyStrip form.title,
                  generate_slug (pyStrip form.title), pyStrip form.link,
                  pyStrip form.description, pyStrip form.photo⟩]) := by
  unfold upload
  simp only [valid_mode_pyLower, valid_subject_pyLower, hm, hs, ht, hl, hfind]
  simp

theorem upload_duplicate_eq (form : UploadForm) (store : List Document)
    (hm : valid_mode form.mode = true) (hs : valid_subject form.subject = true)
    (ht : (pyStrip form.title).isEmpty = false) (hl : (pyStrip form.link).isEmpty = false)
    (hfind : (store.find? (fun d => d.filename == generate_slug (pyStrip form.title) &&
        d.subject == pyLower form.subject && d.mode == pyLower form.mode)).isSome = true) :
    upload form store = (.duplicateExists, store) := by
  obtain ⟨d, hd⟩ := Option.isSome_iff_exists.mp hfind
  unfold upload
  simp only [valid_mode_pyLower, valid_subject_pyLower, hm, hs, ht, hl, hd]
  simp

/-- C7: search applied to the empty string returns the empty sequence, and
search applied to a whitespace-only string also returns the empty sequence;
neither is an error, and in both cases the document store is not queried (the
instrumented flag of `searchRun` stays false for every store). -/
theorem search_blank_query (store : List Document) :
    search "".toList store = [] ∧ search " ".toList store = [] ∧
    searchRun "".toList store = ([], false) ∧ searchRun " ".toList store = ([], false) :=
  ⟨rfl, rfl, rfl, rfl⟩

/-- C10: search is invariant under leading and trailing whitespace in the
query: for every query and store, searching the query equals searching the
stripped query, because the route strips the query before any matching. -/
theorem search_trim_invariant (q : PyStr) (store : List Document) :
    search q store = search (pyStrip q) store := by
  unfold search searchRun searchRoute
  rw [pyStrip_idem]

/-- C5: when the lowercased mode is not in the mode enumeration or the
lowercased subject is not in the twelve-subject enumeration, the subject page
signals the invalid-selector outcome (the 404 page) and returns no result
set. -/
theorem subject_page_invalid_selector (mode subject : PyStr) (store : List Document)
    (h : valid_mode mode = false ∨ valid_subject subject = false) :
    subject_page mode subject store = .invalidSelector := by
  unfold subject_page
  simp only [valid_mode_pyLower, valid_subject_pyLower]
  rcases h with h | h <;> simp [h]

/-- C5 witness: a mode outside the enumeration is rejected on a concrete
store. -/
theorem subject_page_invalid_selector_witness :
    subject_page "undergraduate".toList "ict".toList [] = .invalidSelector :=
  subject_page_invalid_selector "undergraduate".toList "ict".toList []
    (Or.inl (by decide))

/-- C4: for every valid mode and subject (matched case-insensitively), the
subject page returns exactly the stored documents whose mode and subject
fields equal the lowercased inputs — every such document and no others. -/
theorem subject_page_lists_exactly (mode subject : PyStr) (store : List Document)
    (hm : valid_mode mode = true) (hs : valid_subject subject = true) :
    ∃ pdfs, subject_page mode subject store = .page (pyLower mode) (pyLower subject) pdfs ∧
      ∀ d : Document, d ∈ pdfs ↔
        d ∈ store ∧ d.mode = pyLower mode ∧ d.subject = pyLower subject := by
  refine ⟨store.filter (fun d => d.mode == pyLower mode && d.subject == pyLower subject),
    ?_, ?_⟩
  · unfold subject_page
    simp only [valid_mode_pyLower, valid_subject_pyLower, hm, hs]
    simp
  · intro d
    rw [List.mem_filter]
    simp [and_assoc]

/-- Seeded document matching mode academic and subject ict. -/
def c4DocIct : Document :=
  ⟨"academic".toList, "ict".toList, "ICT Notes".toList, "ict-notes".toList,
   "http://a".toList, "".toList, "".toList⟩

/-- Seeded document with a different mode and subject. -/
def c4DocOther : Document :=
  ⟨"admission".toList, "physics 1st paper".toList, "P1".toList, "p1".toList,
   "http://b".toList, "".toList, "".toList⟩

/-- C4 witness: the filtering property instantiated on a seeded two-document
store with case-varying selectors. -/
theorem subject_page_lists_exactly_witness :
    ∃ pdfs, subject_page "Academic".toList "ICT".toList [c4DocIct, c4DocOther]
        = .page (pyLower "Academic".toList) (pyLower "ICT".toList) pdfs ∧
      ∀ d : Document, d ∈ pdfs ↔
        d ∈ [c4DocIct, c4DocOther] ∧ d.mode = pyLower "Academic".toList ∧
          d.subject = pyLower "ICT".toList :=
  subject_page_lists_exactly "Academic".toList "ICT".toList [c4DocIct, c4DocOther]
    (by decide) (by decide)

/-- C3: upload validation accumulates all violations instead of stopping at
the first: with a valid mode and subject but a title and a link that are empty
after stripping, the route fails validation carrying exactly the two messages
for the missing title and the missing link, and the store is unchanged. -/
theorem upload_accumulates_violations (form : UploadForm) (store : List Document)
    (hm : valid_mode form.mode = true) (hs : valid_subject form.subject = true)
    (ht : pyStrip form.title = []) (hl : pyStrip form.link = []) :
    upload form store
      = (.validationFailed [titleRequiredMsg, linkRequiredMsg], store) := by
  unfold upload
  simp only [valid_mode_pyLower, valid_subject_pyLower, hm, hs, ht, hl]
  simp

/-- C3 witness: the accumulation property instantiated on a concrete form with
a whitespace-only title and an empty link. -/
theorem upload_accumulates_violations_witness :
    upload ⟨"Academic".toList, "ICT".toList, "   ".toList, "".toList,
        "".toList, "".toList⟩ []
      = (.validationFailed [titleRequiredMsg, linkRequiredMsg], []) :=
  upload_accumulates_violations
    ⟨"Academic".toList, "ICT".toList, "   ".toList, "".toList, "".toList, "".toList⟩ []
    (by decide) (by decide) (by decide) (by decide)

/-- C2: starting from a store with no record matching mode academic, subject
ict and filename chapter-1, an upload with mode Academic, subject ICT, title
Chapter 1 and a non-empty link succeeds, appending exactly one record with the
normalised fields; a second identical submission then reports a duplicate and
leaves the store unchanged. -/
theorem upload_normalizes_then_duplicate (store : List Document)
    (link description photo : PyStr)
    (hl : (pyStrip link).isEmpty = false)
    (hfresh : ∀ d ∈ store, ¬(d.mode = "academic".toList ∧ d.subject = "ict".toList ∧
        d.filename = "chapter-1".toList)) :
    upload ⟨"Academic".toList, "ICT".toList, "Chapter 1".toList, link, description, photo⟩
        store
      = (.uploaded "academic".toList "ict".toList,
         store ++ [⟨"academic".toList, "ict".toList, "Chapter 1".toList,
                    "chapter-1".toList, pyStrip link, pyStrip description, pyStrip photo⟩]) ∧
    upload ⟨"Academic".toList, "ICT".toList, "Chapter 1".toList, link, description, photo⟩
        (store ++ [⟨"academic".toList, "ict".toList, "Chapter 1".toList,
                    "chapter-1".toList, pyStrip link, pyStrip description, pyStrip photo⟩])
      = (.duplicateExists,
         store ++ [⟨"academic".toList, "ict".toList, "Chapter 1".toList,
                    "chapter-1".toList, pyStrip link, pyStrip description, pyStrip photo⟩]) := by
  have e1 : pyLower "Academic".toList = "academic".toList := by decide
  have e2 : pyLower "ICT".toList = "ict".toList := by decide
  have e3 : pyStrip "Chapter 1".toList = "Chapter 1".toList := by decide
  have e4 : generate_slug "Chapter 1".toList = "chapter-1".toList := by decide
  have hfind : store.find? (fun d =>
      d.filename == generate_slug (pyStrip "Chapter 1".toList) &&
      d.subject == pyLower "ICT".toList && d.mode == pyLower "Academic".toList) = none := by
    rw [List.find?_eq_none]
    intro d hd
    simp only [e1, e2, e3, e4, Bool.and_eq_true, beq_iff_eq]
    intro hcon
    exact hfresh d hd ⟨hcon.2, hcon.1.2, hcon.1.1⟩
  have hm0 : valid_mode "Academic".toList = true := by decide
  have hs0 : valid_subject "ICT".toList = true := by decide
  have ht0 : (pyStrip "Chapter 1".toList).isEmpty = false := by decide
  have h1 := upload_success_eq
    ⟨"Academic".toList, "ICT".toList, "Chapter 1".toList, link, description, photo⟩
    store hm0 hs0 ht0 hl hfind
  simp only [e1, e2, e3, e4] at h1
  refine ⟨h1, ?_⟩
  apply upload_duplicate_eq
  · exact hm0
  · exact hs0
  · exact ht0
  · exact hl
  · rw [List.find?_isSome]
    refine ⟨⟨"academic".toList, "ict".toList, "Chapter 1".toList, "chapter-1".toList,
      pyStrip link, pyStrip description, pyStrip photo⟩, by simp, ?_⟩
    have hpred : ("chapter-1".toList == generate_slug (pyStrip "Chapter 1".toList) &&
        "ict".toList == pyLower "ICT".toList &&
        "academic".toList == pyLower "Academic".toList) = true := by decide
    exact hpred

/-- C2 witness: the two-step scenario instantiated on the empty store with a
concrete link. -/
theorem upload_normalizes_then_duplicate_witness :
    upload ⟨"Academic".toList, "ICT".toList, "Chapter 1".toList, "http://x".toList,
        "".toList, "".toList⟩ []
      = (.uploaded "academic".toList "ict".toList,
         [⟨"academic".toList, "ict".toList, "Chapter 1".toList, "chapter-1".toList,
           pyStrip "http://x".toList, pyStrip "".toList, pyStrip "".toList⟩]) ∧
    upload ⟨"Academic".toList, "ICT".toList, "Chapter 1".toList, "http://x".toList,
        "".toList, "".toList⟩
        ([] ++ [⟨"academic".toList, "ict".toList, "Chapter 1".toList, "chapter-1".toList,
           pyStrip "http://x".toList, pyStrip "".toList, pyStrip "".toList⟩])
      = (.duplicateExists,
         [] ++ [⟨"academic".toList, "ict".toList, "Chapter 1".toList, "chapter-1".toList,
           pyStrip "http://x".toList, pyStrip "".toList, pyStrip "".toList⟩]) :=
  upload_normalizes_then_duplicate [] "http://x".toList "".toList "".toList
    (by decide) (by decide)

/-- C8: the slug function of the embedding is a pure function of the title, so
determinism holds by construction; the substantial consequence is proved here:
when two submissions differ in title but their stripped titles slugify to the
same filename, a first successful upload makes the second submission terminate
as a duplicate, leaving the store unchanged. -/
theorem slug_collision_duplicate (f1 f2 : UploadForm) (store : List Document)
    (hmode : f2.mode = f1.mode) (hsubj : f2.subject = f1.subject)
    (_htitle : f1.title ≠ f2.title)
    (hslug : generate_slug (pyStrip f2.title) = generate_slug (pyStrip f1.title))
    (hm : valid_mode f1.mode = true) (hs : valid_subject f1.subject = true)
    (ht1 : (pyStrip f1.title).isEmpty = false) (hl1 : (pyStrip f1.link).isEmpty = false)
    (ht2 : (pyStrip f2.title).isEmpty = false) (hl2 : (pyStrip f2.link).isEmpty = false)
    (hfresh : store.find? (fun d => d.filename == generate_slug (pyStrip f1.title) &&
        d.subject == pyLower f1.subject && d.mode == pyLower f1.mode) = none) :
    (upload f1 store).1 = .uploaded (pyLower f1.mode) (pyLower f1.subject) ∧
    upload f2 (upload f1 store).2 = (.duplicateExists, (upload f1 store).2) := by
  have h1 := upload_success_eq f1 store hm hs ht1 hl1 hfresh
  refine ⟨by rw [h1], ?_⟩
  rw [h1]
  apply upload_duplicate_eq
  · rw [hmode]; exact hm
  · rw [hsubj]; exact hs
  · exact ht2
  · exact hl2
  · rw [List.find?_isSome]
    refine ⟨⟨pyLower f1.mode, pyLower f1.subject, pyStrip f1.title,
      generate_slug (pyStrip f1.title), pyStrip f1.link, pyStrip f1.description,
      pyStrip f1.photo⟩, by simp, ?_⟩
    simp [hslug, hmode, hsubj]

/-- C8 witness: two distinct titles with the same slug collide on the empty
store. -/
theorem slug_collision_duplicate_witness :
    (upload ⟨"academic".toList, "ict".toList, "Chapter 1".toList, "http://x".toList,
        "".toList, "".toList⟩ []).1
      = .uploaded (pyLower "academic".toList) (pyLower "ict".toList) ∧
    upload ⟨"academic".toList, "ict".toList, "CHAPTER--1!".toList, "http://y".toList,
        "".toList, "".toList⟩
        (upload ⟨"academic".toList, "ict".toList, "Chapter 1".toList, "http://x".toList,
          "".toList, "".toList⟩ []).2
      = (.duplicateExists,
         (upload ⟨"academic".toList, "ict".toList, "Chapter 1".toList, "http://x".toList,
           "".toList, "".toList⟩ []).2) :=
  slug_collision_duplicate
    ⟨"academic".toList, "ict".toList, "Chapter 1".toList, "http://x".toList,
      "".toList, "".toList⟩
    ⟨"academic".toList, "ict".toList, "CHAPTER--1!".toList, "http://y".toList,
      "".toList, "".toList⟩
    [] (by decide) (by decide) (by decide) (by decide) (by decide) (by decide)
    (by decide) (by decide) (by decide) (by decide) (by decide)

/-- C9: the PDF view lowercases the subject but matches the filename exactly
as supplied: with a valid subject, whenever the requested filename differs
from every stored filename — including differing only in letter case from a
stored slug — the route reports not-found. -/
theorem pdf_view_filename_exact (subject filename : PyStr) (store : List Document)
    (hs : valid_subject subject = true)
    (h : ∀ d ∈ store, d.filename ≠ filename) :
    pdf_view subject filename store = .notFound := by
  unfold pdf_view
  have hf : store.find? (fun d => d.subject == pyLower subject && d.filename == filename)
      = none := by
    rw [List.find?_eq_none]
    intro d hd
    simp only [Bool.and_eq_true, beq_iff_eq, not_and]
    intro _ hfn
    exact h d hd hfn
  simp only [valid_subject_pyLower, hs, hf]
  simp

/-- Stored document whose filename is the lowercase slug chapter-1. -/
def c9Doc : Document :=
  ⟨"academic".toList, "ict".toList, "Chapter 1".toList, "chapter-1".toList,
   "http://x".toList, "".toList, "".toList⟩

/-- C9 witness: a request differing from the stored slug only in letter case
is not found. -/
theorem pdf_view_filename_exact_witness :
    pdf_view "ict".toList "Chapter-1".toList [c9Doc] = .notFound :=
  pdf_view_filename_exact "ict".toList "Chapter-1".toList [c9Doc]
    (by decide) (by decide)

/-- C6: the PDF view signals the invalid-selector outcome when the lowercased
subject is outside the subject enumeration; with a valid subject it returns
only a stored document whose subject and filename match the lookup, and it
reports not-found exactly when no stored document has that subject and
filename pair. -/
theorem pdf_view_lookup_spec (subject filename : PyStr) (store : List Document) :
    (valid_subject subject = false → pdf_view subject filename store = .invalidSubject) ∧
    (valid_subject subject = true →
      ((pdf_view subject filename store = .notFound ↔
          ∀ d ∈ store, ¬(d.subject = pyLower subject ∧ d.filename = filename)) ∧
        ∀ pdf, pdf_view subject filename store = .view pdf →
          pdf ∈ store ∧ pdf.subject = pyLower subject ∧ pdf.filename = filename)) := by
  constructor
  · intro h
    unfold pdf_view
    simp [valid_subject_pyLower, h]
  · intro h
    have hred : pdf_view subject filename store =
        match store.find? (fun d => d.subject == pyLower subject && d.filename == filename)
          with
        | some pdf => .view pdf
        | none => .notFound := by
      unfold pdf_view
      simp [valid_subject_pyLower, h]
    rcases hfind : store.find?
        (fun d => d.subject == pyLower subject && d.filename == filename) with _ | d
    · rw [hfind] at hred
      have hnone := List.find?_eq_none.mp hfind
      simp only [Bool.and_eq_true, beq_iff_eq, not_and] at hnone
      constructor
      · refine iff_of_true hred ?_
        intro x hx hcon
        exact hnone x hx hcon.1 hcon.2
      · intro pdf hpdf
        rw [hred] at hpdf
        cases hpdf
    · rw [hfind] at hred
      simp only [] at hred
      have hp := List.find?_some hfind
      simp only [Bool.and_eq_true, beq_iff_eq] at hp
      have hmem := List.mem_of_find?_eq_some hfind
      constructor
      · refine iff_of_false ?_ ?_
        · rw [hred]
          simp
        · intro hall
          exact hall d hmem ⟨hp.1, hp.2⟩
      · intro pdf hpdf
        rw [hred] at hpdf
        injection hpdf with hdp
        subst hdp
        exact ⟨hmem, hp.1, hp.2⟩

/-- C6 witness: an out-of-enumeration subject is rejected, and a valid subject
with no matching record reports not-found. -/
theorem pdf_view_lookup_spec_witness :
    pdf_view "History".toList "x".toList [] = .invalidSubject ∧
    pdf_view "ICT".toList "x".toList [] = .notFound :=
  ⟨(pdf_view_lookup_spec "History".toList "x".toList []).1 (by decide),
   ((pdf_view_lookup_spec "ICT".toList "x".toList []).2 (by decide)).1.mpr (by decide)⟩

/-- Stored document whose searched fields contain xyz, separating regex
matching from literal substring matching. -/
def c1Doc : Document :=
  ⟨"academic".toList, "ict".toList, "xyz".toList, "xyz".toList,
   "http://x".toList, "".toList, "".toList⟩

/-- C1 counterexample: the claim that search matching is literal-text fails on
the code. The query x.z does not occur literally in the title, subject or
description of the stored document, yet the search route returns the document,
because the route passes the query to the store as an unescaped regular
expression and the dot metacharacter matches the letter y. -/
theorem search_not_literal_counterexample :
    c1Doc ∈ search "x.z".toList [c1Doc] ∧
    specSearchMatches "x.z".toList c1Doc = false := by decide

/-- C1 amended: search matching follows regex semantics, not literal-text
semantics. For every query that is non-empty after stripping: when the
stripped query parses as a pattern of the modelled regex fragment, the route
renders exactly the stored documents whose title, subject or description the
pattern matches case-insensitively — a document is in the results iff it is
in the store and the pattern matches it; and when the stripped query is an
invalid pattern, the store raises and the route surfaces a server error
instead of treating the query as literal text. -/
theorem search_regex_member (q : PyStr) (store : List Document)
    (hq : (pyStrip q).isEmpty = false) :
    (∀ r, parseRegex (pyStrip q) = some r →
      searchRoute q store = .results (store.filter (fun d => docMatches r d)) ∧
        ∀ d, d ∈ search q store ↔ d ∈ store ∧ docMatches r d = true) ∧
    (parseRegex (pyStrip q) = none → searchRoute q store = .serverError) := by
  constructor
  · intro r hr
    constructor
    · unfold searchRoute
      simp [hq, hr]
    · intro d
      unfold search searchRun searchRoute
      simp [hq, hr, List.mem_filter]
  · intro hr
    unfold searchRoute
    simp [hq, hr]

/-- The parsed form of the query of the C1 scenario. -/
def c1Regex : Regex := (parseRegex "x.z".toList).getD .eps

/-- C1 witness: the amended equivalence instantiated on a one-document store
where the dot metacharacter matches, and the error arm instantiated on the
lone-parenthesis query. -/
theorem search_regex_member_witness :
    (c1Doc ∈ search "x.z".toList [c1Doc] ↔
      c1Doc ∈ [c1Doc] ∧ docMatches c1Regex c1Doc = true) ∧
    searchRoute "(".toList [] = .serverError :=
  ⟨((search_regex_member "x.z".toList [c1Doc] (by decide)).1 c1Regex (by rfl)).2 c1Doc,
   (search_regex_member "(".toList [] (by decide)).2 (by rfl)⟩

/-! Fidelity checks of the regex model on the metacharacters of the fragment,
each contrasted with what literal-text matching would do, and on the error
path for invalid patterns. -/

/-- The plus quantifier repeats: a+ matches aa (literal text would not). -/
theorem regex_model_plus : regexAcceptsCI "a+".toList "aa".toList = true ∧
    occursIn "a+".toList "aa".toList = false := by decide

/-- The optional quantifier: colou?r matches COLOR caselessly. -/
theorem regex_model_opt : regexAcceptsCI "colou?r".toList "COLOR".toList = true := by decide

/-- A character class matches any of its members, caselessly. -/
theorem regex_model_class : regexAcceptsCI "[ab]".toList "b".toList = true ∧
    regexAcceptsCI "[a-z]+".toList "ABC".toList = true ∧
    regexAcceptsCI "[^ab]".toList "b".toList = false := by decide

/-- Alternation with grouping and repetition: (ab|cd)+ matches cdab. -/
theorem regex_model_alt_group :
    regexAcceptsCI "(ab|cd)+".toList "cdab".toList = true := by decide

/-- Counted repetition: between two and three copies of a. -/
theorem regex_model_braces :
    regexAcceptsCI ['a', '{', '2', ',', '3', '}'] "caab".toList = true ∧
    regexAcceptsCI ['a', '{', '3', '}'] "aab".toList = false := by decide

/-- The start anchor confines the match to the start of the value. -/
theorem regex_model_anchors : regexAcceptsCI "^b".toList "ab".toList = false ∧
    regexAcceptsCI "b$".toList "ba".toList = false ∧
    regexAcceptsCI "^a".toList "ab".toList = true := by decide

/-- An escaped dot is literal: it does not match between x and y. -/
theorem regex_model_escape : regexAcceptsCI "\\.".toList "x.y".toList = true ∧
    regexAcceptsCI "\\.".toList "xy".toList = false ∧
    regexAcceptsCI "\\d+".toList "ab12".toList = true := by decide

/-- Invalid patterns fail to parse: a lone parenthesis (either side), an
unterminated class, a bare quantifier, a trailing backslash and an
out-of-order counted repetition. -/
theorem regex_model_invalid : parseRegex "(".toList = none ∧
    parseRegex ")".toList = none ∧
    parseRegex "[ab".toList = none ∧
    parseRegex "*".toList = none ∧
    parseRegex "\\".toList = none ∧
    parseRegex ['a', '{', '3', ',', '2', '}'] = none := by decide

end LightOfPDF
